import Mathlib

/-!
Verification development for the credential-resolution and streaming-chat core
of the AI-Session-Viewer repository (crates/session-core).

The Rust sources are shallowly embedded:

* Rust `String`/`&str` values are `List Char` (`Str`), except in `mask_key`
  where byte-level slicing matters and the embedding works on UTF-8 bytes.
* `Option`/`Result` map to `Option`/`Except`.
* The process environment, the home directory and the on-disk settings file
  are gathered into an explicit `SysState` record, so resolution is a pure
  function of its inputs (the settings `env` map is projected onto the three
  keys the code ever consults).
* Network I/O is passed in as an explicit value describing what the single
  HTTP request of each function would observe; the functions return the
  requests they issue, so "no request is made" is expressible.
* External libraries (serde_json, chrono) are parameters: JSON parsing and
  RFC3339 timestamp parsing enter as function arguments.
* Rust error strings built with `format!` are modelled as tagged constructors
  carrying the dynamic payloads.
-/

namespace SessionCore

/-- Rust strings are modelled as lists of characters. -/
abbrev Str := List Char

/-- UTF-8 byte strings, used where the Rust code slices at byte indices. -/
abbrev Bytes := List Nat

/-- Keep an optional string only when it is present and non-empty; models
Rust's `.filter(|s| !s.is_empty())` on an `Option`. -/
def nonEmptyOpt (o : Option Str) : Option Str :=
  o.filter (fun s => !s.isEmpty)

/-- The fixed default base URL constant of `cli_config.rs`. -/
def defaultBaseUrl : Str := "https://api.anthropic.com".toList

/-- Projection of the settings file's `env` map onto the three keys that
`read_claude_config` consults (`cli_config.rs`, `ClaudeSettings.env`).
A `none` field models an absent key. -/
structure ClaudeEnvMap where
  anthropicAuthToken : Option Str := none
  anthropicApiKey : Option Str := none
  anthropicBaseUrl : Option Str := none

/-- The deserialized `~/.claude/settings.json` (`ClaudeSettings` in
`cli_config.rs`); `Default::default()` is the record with all fields empty. -/
structure ClaudeSettings where
  env : ClaudeEnvMap := {}
  model : Option Str := none

/-- The ambient state `read_claude_config` and `list_models` read:
whether the home directory resolves, the parse result of the settings file
(`none` models a missing, unreadable or unparseable file, absorbed by
`read_json_file(..).unwrap_or_default()`), and the two environment
variables consulted (`none` = unset; `env::var` can also yield `some []`). -/
structure SysState where
  homeDir : Bool
  settingsFile : Option ClaudeSettings
  envAnthropicApiKey : Option Str
  envAnthropicBaseUrl : Option Str

/-- Embedding of `read_claude_config` (`cli_config.rs` lines 61-90), without
the `config_path` component (a pure display string derived from the home
path, consulted by no claim). Returns `(api_key, base_url, default_model)`. -/
def read_claude_config (s : SysState) : Except Str (Str × Str × Str) :=
  if s.homeDir = false then .error "Cannot determine home directory".toList
  else
    let settings := s.settingsFile.getD {}
    let api_key :=
      ((nonEmptyOpt settings.env.anthropicAuthToken <|>
        nonEmptyOpt settings.env.anthropicApiKey) <|>
        nonEmptyOpt s.envAnthropicApiKey).getD []
    let base_url :=
      ((nonEmptyOpt settings.env.anthropicBaseUrl <|>
        nonEmptyOpt s.envAnthropicBaseUrl)).getD defaultBaseUrl
    let default_model := settings.model.getD []
    .ok (api_key, base_url, default_model)

/-- Embedding of `get_credentials` (`cli_config.rs` lines 48-56): the error
case and the empty-key case both collapse to an empty key with the default
base URL. -/
def get_credentials (s : SysState) : Str × Str :=
  match read_claude_config s with
  | .ok (api_key, base_url, _) =>
      if !api_key.isEmpty then (api_key, base_url)
      else ([], defaultBaseUrl)
  | .error _ => ([], defaultBaseUrl)

/-- Rust's `str::is_char_boundary` on a UTF-8 byte string: index 0 and the
length are boundaries, an in-range index is a boundary exactly when the byte
there is not a UTF-8 continuation byte (0x80..0xBF), and an out-of-range
index is not a boundary. -/
def isCharBoundary (bs : Bytes) (i : Nat) : Bool :=
  if i = 0 then true
  else
    match bs.get? i with
    | some b => decide (b < 128) || decide (192 ≤ b)
    | none => decide (i = bs.length)

/-- Embedding of `mask_key` (`cli_config.rs` lines 92-103) on UTF-8 bytes.
`key.len()` is the byte length; `&key[..3]` and `&key[len - 4..]` panic when
the byte index is not a character boundary, modelled by `none`. Byte 42 is
`*`, byte 46 is `.`. -/
def mask_key (key : Bytes) : Option Bytes :=
  if key.isEmpty then some []
  else
    let len := key.length
    if len ≤ 8 then some (List.replicate len 42)
    else if isCharBoundary key 3 && isCharBoundary key (len - 4) then
      some (key.take 3 ++ [46, 46, 46] ++ key.drop (len - 4))
    else none

/-- ASCII lowercasing of a string, modelling Rust's `str::to_lowercase` on
the ASCII model identifiers this code compares. -/
def toLowerStr (l : Str) : Str := l.map Char.toLower

/-- The `ModelInfo` record of `model_list.rs`. -/
structure ModelInfo where
  id : Str
  name : Str
  provider : Str
  group : Str
  created : Option Int
deriving DecidableEq

/-- One entry of the remote catalog response (`AnthropicModel` in
`model_list.rs`), as produced by deserialization. -/
structure AnthropicModel where
  id : Str
  display_name : Option Str
  created_at : Option Str
deriving DecidableEq

/-- Rust's `str::contains(pattern)`: the pattern occurs as a contiguous
substring. -/
def strContains (hay needle : Str) : Bool := decide (needle <:+: hay)

/-- Embedding of `infer_group` (`model_list.rs` lines 28-40). -/
def infer_group (id : Str) : Str :=
  let lower := toLowerStr id
  if strContains lower "opus".toList then "Claude Opus".toList
  else if strContains lower "sonnet".toList then "Claude Sonnet".toList
  else if strContains lower "haiku".toList then "Claude Haiku".toList
  else "Other".toList

/-- Embedding of `builtin_claude_models` (`model_list.rs` lines 43-67). -/
def builtin_claude_models : List ModelInfo :=
  [ { id := "claude-sonnet-4-6".toList
      name := "Sonnet 4.6 (默认推荐)".toList
      provider := "anthropic".toList
      group := "Claude Sonnet".toList
      created := none }
  , { id := "claude-opus-4-6".toList
      name := "Opus 4.6".toList
      provider := "anthropic".toList
      group := "Claude Opus".toList
      created := none }
  , { id := "claude-haiku-4-5".toList
      name := "Haiku 4.5".toList
      provider := "anthropic".toList
      group := "Claude Haiku".toList
      created := none } ]

/-- Rust's `Ord::cmp` on `i64`. -/
def cmpInt (a b : Int) : Ordering :=
  if a < b then .lt else if a = b then .eq else .gt

/-- Rust's `Ord::cmp` on `Option<i64>`: `None` is smaller than every
`Some`. -/
def cmpOptCreated : Option Int → Option Int → Ordering
  | none, none => .eq
  | none, some _ => .lt
  | some _, none => .gt
  | some a, some b => cmpInt a b

/-- The ordering the sort in `fetch_anthropic_models` establishes
(`model_list.rs` line 117): `a` may precede `b` exactly when the Rust
comparator `b.created.cmp(&a.created)` is not `Greater`, i.e. created
descending with absent timestamps last. -/
def createdDescLE (a b : ModelInfo) : Prop :=
  cmpOptCreated b.created a.created ≠ Ordering.gt

instance : DecidableRel createdDescLE := fun a b =>
  inferInstanceAs (Decidable (cmpOptCreated b.created a.created ≠ Ordering.gt))

/-- Stripping of all trailing slash characters, modelling
`base_url.trim_end_matches('/')`. -/
def trim_end_slashes (l : Str) : Str :=
  (l.reverse.dropWhile (fun c => c = '/')).reverse

/-- The catalog request URL built at `model_list.rs` line 70. -/
def models_url (base_url : Str) : Str :=
  trim_end_slashes base_url ++ "/v1/models".toList

/-- The single GET request `fetch_anthropic_models` issues: its URL and the
`x-api-key` header value (the `anthropic-version` header is the constant
string 2023-06-01). -/
structure CatalogRequest where
  url : Str
  apiKey : Str
deriving DecidableEq

/-- What the catalog GET observes on the wire: a transport-level failure, or
a response with a status code, a body text (read by `resp.text()` on the
error path) and the serde parse result of the body (read by `resp.json()` on
the success path; serde_json is external, so the parse outcome is data). -/
inductive CatalogResponse where
  | transportErr (msg : Str)
  | response (status : Nat) (text : Str) (parsed : Option (List AnthropicModel))
deriving DecidableEq

/-- The three error strings `fetch_anthropic_models` can build with
`format!`, as tagged values. -/
inductive CatalogError where
  | requestFailed (msg : Str)
  | apiError (status : Nat) (body : Str)
  | parseFailed
deriving DecidableEq

/-- Rust's `StatusCode::is_success`: 2xx. -/
def isSuccessStatus (status : Nat) : Bool :=
  decide (200 ≤ status) && decide (status < 300)

/-- The per-entry conversion inside `fetch_anthropic_models`
(`model_list.rs` lines 94-109); `parseTs` embeds the external
`chrono::DateTime::parse_from_rfc3339(..).ok().map(|dt| dt.timestamp())`. -/
def to_model_info (parseTs : Str → Option Int) (m : AnthropicModel) : ModelInfo :=
  { id := m.id
    name := m.display_name.getD m.id
    provider := "anthropic".toList
    group := infer_group m.id
    created := m.created_at.bind parseTs }

/-- The retain predicate at `model_list.rs` line 114:
`m.id.to_lowercase().contains("claude")`. -/
def is_claude_model (m : ModelInfo) : Bool :=
  strContains (toLowerStr m.id) "claude".toList

/-- The success-path body of `fetch_anthropic_models` (`model_list.rs`
lines 91-118): convert each entry, retain Claude models, sort by `created`
descending. Rust's `Vec::sort_by` is a stable sort; every stable sort of a
list with respect to the same total preorder yields the same output list, so
Mathlib's stable `List.insertionSort` embeds it. -/
def remote_pipeline (parseTs : Str → Option Int) (data : List AnthropicModel) :
    List ModelInfo :=
  ((data.map (to_model_info parseTs)).filter is_claude_model).insertionSort createdDescLE

/-- Embedding of `fetch_anthropic_models` (`model_list.rs` lines 69-119).
Returns the request issued together with the result. -/
def fetch_anthropic_models (parseTs : Str → Option Int) (api_key base_url : Str)
    (net : CatalogResponse) : CatalogRequest × Except CatalogError (List ModelInfo) :=
  let req : CatalogRequest := { url := models_url base_url, apiKey := api_key }
  match net with
  | .transportErr msg => (req, .error (.requestFailed msg))
  | .response status text parsed =>
    if !isSuccessStatus status then (req, .error (.apiError status text))
    else
      match parsed with
      | none => (req, .error .parseFailed)
      | some data => (req, .ok (remote_pipeline parseTs data))

/-- Embedding of `merge_models` (`model_list.rs` lines 122-132): the
`HashSet` membership test is list membership among the built-in ids. -/
def merge_models (builtin api_models : List ModelInfo) : List ModelInfo :=
  builtin ++ api_models.filter (fun m => !(builtin.any (fun b => b.id == m.id)))

/-- The credential-resolution block at the head of `list_models`
(`model_list.rs` lines 144-165), as a function of the explicit overrides and
the ambient state. -/
def resolve_list_credentials (api_key base_url : Str) (s : SysState) : Str × Str :=
  if api_key.isEmpty && base_url.isEmpty then
    let cli := get_credentials s
    let final_key := if cli.1.isEmpty then s.envAnthropicApiKey.getD [] else cli.1
    (final_key, cli.2)
  else
    let key := if api_key.isEmpty then s.envAnthropicApiKey.getD [] else api_key
    let url := if base_url.isEmpty then s.envAnthropicBaseUrl.getD defaultBaseUrl else base_url
    (key, url)

/-- Embedding of `list_models` (`model_list.rs` lines 139-181). The error
type mirrors the Rust `Result<_, String>` signature. -/
def list_models (s : SysState) (api_key base_url : Str)
    (parseTs : Str → Option Int) (net : CatalogResponse) :
    Except Str (List ModelInfo) :=
  let resolved := resolve_list_credentials api_key base_url s
  let builtin := builtin_claude_models
  if resolved.1.isEmpty then .ok builtin
  else
    let api_models :=
      match (fetch_anthropic_models parseTs resolved.1 resolved.2 net).2 with
      | .ok models => models
      | .error _ => []
    .ok (merge_models builtin api_models)

/-- JSON values, as far as `stream_chat` inspects them: objects are field
lists (`get` is first-match lookup) and strings are `asStr`; the remaining
constructors make the type faithful to what a parser can produce. -/
inductive Json where
  | null
  | bool (b : Bool)
  | num (n : Int)
  | str (s : Str)
  | arr (xs : List Json)
  | obj (fields : List (Str × Json))

/-- Field access on a parsed JSON value, modelling `serde_json::Value::get`. -/
def Json.getField : Json → Str → Option Json
  | .obj fields, k => fields.lookup k
  | _, _ => none

/-- String extraction, modelling `serde_json::Value::as_str`. -/
def Json.asStr : Json → Option Str
  | .str s => some s
  | _ => none

/-- The `ChatMsg` record of `quick_chat.rs`. -/
structure ChatMsg where
  role : Str
  content : Str
deriving DecidableEq

/-- ASCII whitespace, standing in for Rust's `char::is_whitespace` in
`line.trim()`; the SSE protocol only ever surrounds payloads with these. -/
def isWhitespaceChar (c : Char) : Bool :=
  c = ' ' || c = '\t' || c = '\n' || c = '\r'

/-- Rust's `str::trim`: whitespace removed from both ends. -/
def rustTrim (l : Str) : Str :=
  ((l.dropWhile isWhitespaceChar).reverse.dropWhile isWhitespaceChar).reverse

/-- The error cases of `stream_chat` (`quick_chat.rs`), whose Rust values
are `format!` strings, as tagged values. -/
inductive ChatError where
  | noApiKey
  | clientBuildFailed
  | requestFailed (msg : Str)
  | apiError (status : Nat) (body : Str)
deriving DecidableEq

/-- What the chat POST observes: a transport failure, or a status code, the
body text read on the non-2xx path, and — on the 2xx path — the streamed
body as the sequence of `lines.next_line()` outcomes: `Except.ok` is a line,
`Except.error` an I/O error while reading, and the list end is end of
stream. -/
inductive ChatResponse where
  | transportErr (msg : Str)
  | response (status : Nat) (errText : Str) (body : List (Except Str Str))

/-- The non-deterministic inputs of one `stream_chat` call: whether
`Client::builder().build()` succeeds, and the network outcome. -/
structure ChatWorld where
  clientOk : Bool
  response : ChatResponse

/-- The chat request URL built at `quick_chat.rs` line 33. -/
def chat_url (base_url : Str) : Str :=
  trim_end_slashes base_url ++ "/v1/messages".toList

/-- The single POST request `stream_chat` issues: URL, `x-api-key` header
and the JSON body fields of `quick_chat.rs` lines 45-50 (the
`anthropic-version` and `content-type` headers are constants). -/
structure ChatRequest where
  url : Str
  apiKey : Str
  model : Str
  maxTokens : Nat
  streamFlag : Bool
  messages : List ChatMsg
deriving DecidableEq

/-- The request `stream_chat` sends once credentials resolved. -/
def chat_request (s : SysState) (messages : List ChatMsg) (model : Str) : ChatRequest :=
  { url := chat_url (get_credentials s).2
    apiKey := (get_credentials s).1
    model := model
    maxTokens := 16384
    streamFlag := true
    messages := messages }

/-- The literal prefix `data: ` that a payload line must carry
(`quick_chat.rs` line 80); its length is the 6 of `&line[6..]`. -/
def sse_data_tag : Str := "data: ".toList

/-- The end-of-stream sentinel payload `[DONE]` (`quick_chat.rs` line 84). -/
def sse_done_tag : Str := "[DONE]".toList

/-- The per-event text extraction of `quick_chat.rs` lines 94-105: the
`type` field must be the string `content_block_delta` and `delta.text` must
be a non-empty string. -/
def delta_text (j : Json) : Option Str :=
  match (j.getField "type".toList).bind Json.asStr with
  | some eventType =>
    if eventType = "content_block_delta".toList then
      match ((j.getField "delta".toList).bind (fun d => d.getField "text".toList)).bind Json.asStr with
      | some text => if !text.isEmpty then some text else none
      | none => none
    else none
  | none => none

/-- The SSE read loop of `quick_chat.rs` lines 78-107, parameterized by the
external `serde_json::from_str` (`parse`). Its value is the sequence of
`on_chunk` arguments, in call order. The loop stops at the first read
error, at the `DONE` sentinel, or at end of stream. -/
def sse_lines (parse : Str → Option Json) : List (Except Str Str) → List Str
  | [] => []
  | .error _ :: _ => []
  | .ok rawLine :: rest =>
    if ¬ (sse_data_tag <+: rustTrim rawLine) then sse_lines parse rest
    else if (rustTrim rawLine).drop 6 = sse_done_tag then []
    else
      match parse ((rustTrim rawLine).drop 6) with
      | none => sse_lines parse rest
      | some j =>
        match delta_text j with
        | some text => text :: sse_lines parse rest
        | none => sse_lines parse rest

/-- Embedding of `stream_chat` (`quick_chat.rs` lines 18-110). The result
carries the Rust return value, the `on_chunk` call sequence, and the list of
network requests issued (so a run that makes no request returns `[]`). -/
def stream_chat (s : SysState) (messages : List ChatMsg) (model : Str)
    (parse : Str → Option Json) (w : ChatWorld) :
    Except ChatError Unit × List Str × List ChatRequest :=
  let creds := get_credentials s
  if creds.1.isEmpty then (.error .noApiKey, [], [])
  else if !w.clientOk then (.error .clientBuildFailed, [], [])
  else
    let req := chat_request s messages model
    match w.response with
    | .transportErr msg => (.error (.requestFailed msg), [], [req])
    | .response status errText body =>
      if !isSuccessStatus status then (.error (.apiError status errText), [], [req])
      else (.ok (), sse_lines parse body, [req])

/-! ## Spec-side definitions and derived views

The next definitions do not embed code. `first_non_empty`,
`spec_key_chain` and `spec_url_chain` transcribe the precedence chains the
specification claims, for comparison with the embedded resolution.
`sse_is_done` and `sse_line_chunk` are derived per-line views of the read
loop, used to state its characterisation. -/

/-- First non-empty value of a chain of optional strings, with a default;
transcribes the spec's "first non-empty wins". -/
def first_non_empty (chain : List (Option Str)) (dflt : Str) : Str :=
  match chain with
  | [] => dflt
  | o :: rest =>
    match nonEmptyOpt o with
    | some v => v
    | none => first_non_empty rest dflt

/-- Spec-side definition of the claimed API-key precedence chain: explicit
key, settings `ANTHROPIC_AUTH_TOKEN`, settings `ANTHROPIC_API_KEY`,
environment `ANTHROPIC_API_KEY`, else empty. -/
def spec_key_chain (explicit_key : Str) (s : SysState) : Str :=
  let env := (s.settingsFile.getD {}).env
  first_non_empty
    [some explicit_key, env.anthropicAuthToken, env.anthropicApiKey, s.envAnthropicApiKey] []

/-- Spec-side definition of the claimed base-URL precedence chain: explicit
URL, settings `ANTHROPIC_BASE_URL`, environment `ANTHROPIC_BASE_URL`, else
the fixed default. -/
def spec_url_chain (explicit_url : Str) (s : SysState) : Str :=
  let env := (s.settingsFile.getD {}).env
  first_non_empty
    [some explicit_url, env.anthropicBaseUrl, s.envAnthropicBaseUrl] defaultBaseUrl

/-- Derived view of one loop iteration: the line is the `DONE` sentinel
(read loop terminates there). -/
def sse_is_done (rawLine : Str) : Bool :=
  decide (sse_data_tag <+: rustTrim rawLine ∧
    (rustTrim rawLine).drop 6 = sse_done_tag)

/-- Derived view of one loop iteration: the chunk the line delivers, if
any (`none` both for ignored and for malformed lines). -/
def sse_line_chunk (parse : Str → Option Json) (rawLine : Str) : Option Str :=
  if ¬ (sse_data_tag <+: rustTrim rawLine) then none
  else (parse ((rustTrim rawLine).drop 6)).bind delta_text

/-- A network fault on the catalog path: transport failure or a non-2xx
status. -/
def catalog_fault : CatalogResponse → Prop
  | .transportErr _ => True
  | .response status _ _ => isSuccessStatus status = false

/-! ## Concrete inputs used by witnesses and counterexamples -/

/-- A state whose settings file carries only an auth token. -/
def s_key_only : SysState :=
  { homeDir := true
    settingsFile := some { env := { anthropicAuthToken := some "sk-test-key".toList } }
    envAnthropicApiKey := none
    envAnthropicBaseUrl := none }

/-- A state with nothing configured anywhere. -/
def s_empty : SysState :=
  { homeDir := true, settingsFile := none
    envAnthropicApiKey := none, envAnthropicBaseUrl := none }

/-- A state whose settings file carries only `ANTHROPIC_AUTH_TOKEN = "A"`. -/
def s_auth_A : SysState :=
  { homeDir := true
    settingsFile := some { env := { anthropicAuthToken := some "A".toList } }
    envAnthropicApiKey := none
    envAnthropicBaseUrl := none }

/-- A state whose settings file carries only a base URL. -/
def s_base_S : SysState :=
  { homeDir := true
    settingsFile := some { env := { anthropicBaseUrl := some "https://settings.example".toList } }
    envAnthropicApiKey := none
    envAnthropicBaseUrl := none }

/-- Like `s_base_S`, but the process environment additionally has
`ANTHROPIC_BASE_URL` set to the empty string. -/
def s_env_empty_base : SysState :=
  { homeDir := true
    settingsFile := some { env := { anthropicBaseUrl := some "https://settings.example".toList } }
    envAnthropicApiKey := none
    envAnthropicBaseUrl := some [] }

/-- A state whose home directory does not resolve, while the environment
still carries an API key. -/
def s_no_home : SysState :=
  { homeDir := false, settingsFile := none
    envAnthropicApiKey := some "C-key".toList, envAnthropicBaseUrl := none }

/-- The UTF-8 bytes of five Greek alpha characters (U+03B1, two bytes
each): a 10-byte key whose byte index 3 is not a character boundary. -/
def alphaKeyBytes : Bytes :=
  [206, 177, 206, 177, 206, 177, 206, 177, 206, 177]

/-- A `content_block_delta` event carrying the given delta text. -/
def delta_json (text : Str) : Json :=
  .obj [("type".toList, .str "content_block_delta".toList),
        ("delta".toList, .obj [("text".toList, .str text)])]

/-- A two-event parse table standing in for `serde_json::from_str`; every
other payload (in particular the malformed `notjson`) fails to parse. -/
def parse_demo (payload : Str) : Option Json :=
  if payload = "evt1".toList then some (delta_json "Hi".toList)
  else if payload = "evt2".toList then some (delta_json "Yo".toList)
  else none

/-- A streamed body: two valid deltas separated by a malformed line, the
`DONE` sentinel, then a further event that must not be delivered. -/
def demo_lines : List Str :=
  ["data: evt1".toList, "data: notjson".toList, "data: evt2".toList,
   "data: [DONE]".toList, "data: evt1".toList]

/-- A model entry with the given id and no timestamp, for merge tests. -/
def mk_model (id : Str) : ModelInfo :=
  { id := id, name := id, provider := "anthropic".toList, group := "Other".toList,
    created := none }

/-- A two-entry timestamp parse table standing in for chrono; every other
string fails to parse. -/
def demo_parse_ts (ts : Str) : Option Int :=
  if ts = "2025-01-01T00:00:00Z".toList then some 100
  else if ts = "2025-06-01T00:00:00Z".toList then some 200
  else none

/-- A mixed remote catalog: a non-Claude entry, timestamps out of order, an
entry without a timestamp and one whose timestamp fails to parse. -/
def demo_catalog : List AnthropicModel :=
  [ { id := "claude-x-old".toList, display_name := none
      created_at := some "2025-01-01T00:00:00Z".toList }
  , { id := "gpt-4".toList, display_name := some "GPT-4".toList
      created_at := some "2025-06-01T00:00:00Z".toList }
  , { id := "claude-x-new".toList, display_name := some "Claude X New".toList
      created_at := some "2025-06-01T00:00:00Z".toList }
  , { id := "claude-no-ts".toList, display_name := none, created_at := none }
  , { id := "claude-bad-ts".toList, display_name := none
      created_at := some "garbage".toList } ]

/-- The spec's merge example: built-in ids `a`, `b`. -/
def demo_builtin : List ModelInfo := [mk_model "a".toList, mk_model "b".toList]

/-- The spec's merge example: remote ids `b`, `c`. -/
def demo_remote : List ModelInfo := [mk_model "b".toList, mk_model "c".toList]

/-- A state resolving to base URL `http://h` (no trailing slash). -/
def s_url_a : SysState :=
  { homeDir := true
    settingsFile := some { env := { anthropicAuthToken := some "k".toList
                                    anthropicBaseUrl := some "http://h".toList } }
    envAnthropicApiKey := none
    envAnthropicBaseUrl := none }

/-- A state resolving to base URL `http://h//` (two trailing slashes). -/
def s_url_b : SysState :=
  { homeDir := true
    settingsFile := some { env := { anthropicAuthToken := some "k".toList
                                    anthropicBaseUrl := some "http://h//".toList } }
    envAnthropicApiKey := none
    envAnthropicBaseUrl := none }

/-! ## Helper lemmas -/

lemma cmpInt_eq_gt {a b : Int} : cmpInt a b = Ordering.gt ↔ b < a := by
  unfold cmpInt
  split_ifs with h1 h2 <;> simp_all <;> omega

lemma cmpOpt_not_gt_total (x y : Option Int) :
    cmpOptCreated x y ≠ Ordering.gt ∨ cmpOptCreated y x ≠ Ordering.gt := by
  cases x <;> cases y <;> simp [cmpOptCreated, cmpInt_eq_gt]
  omega

lemma cmpOpt_le_trans {x y z : Option Int}
    (hxy : cmpOptCreated x y ≠ Ordering.gt) (hyz : cmpOptCreated y z ≠ Ordering.gt) :
    cmpOptCreated x z ≠ Ordering.gt := by
  cases x <;> cases y <;> cases z <;>
    simp_all [cmpOptCreated, cmpInt_eq_gt]
  omega

lemma cmpOpt_gt_ne {x y : Option Int} (h : cmpOptCreated x y = Ordering.gt) : x ≠ y := by
  cases x <;> cases y <;> simp_all [cmpOptCreated, cmpInt_eq_gt]
  omega

instance : IsTotal ModelInfo createdDescLE :=
  ⟨fun a b => cmpOpt_not_gt_total b.created a.created⟩

instance : IsTrans ModelInfo createdDescLE :=
  ⟨fun _ _ _ hab hbc => cmpOpt_le_trans hbc hab⟩

lemma filter_orderedInsert {α : Type} (r : α → α → Prop) [DecidableRel r] (p : α → Bool)
    (x : α) (h : p x = true → ∀ b, ¬ r x b → p b = false) (l : List α) :
    (l.orderedInsert r x).filter p = if p x then x :: l.filter p else l.filter p := by
  induction l with
  | nil => by_cases hpx : p x <;> simp [List.orderedInsert, List.filter_cons, hpx]
  | cons b l ih =>
    rw [List.orderedInsert]
    by_cases hrb : r x b
    · by_cases hpx : p x <;> simp [hrb, List.filter_cons, hpx]
    · by_cases hpx : p x
      · have hpb : p b = false := h hpx b hrb
        simp [hrb, List.filter_cons, hpb, hpx, ih]
      · simp [hrb, List.filter_cons, hpx, ih]

lemma filter_insertionSort {α : Type} (r : α → α → Prop) [DecidableRel r] (p : α → Bool)
    (h : ∀ x, p x = true → ∀ b, ¬ r x b → p b = false) (l : List α) :
    (l.insertionSort r).filter p = l.filter p := by
  induction l with
  | nil => rfl
  | cons a l ih =>
    rw [List.insertionSort, filter_orderedInsert r p a (h a) (l.insertionSort r)]
    by_cases hpa : p a <;> simp [hpa, List.filter_cons, ih]

lemma sse_lines_cons (parse : Str → Option Json) (l : Str) (tail : List (Except Str Str)) :
    sse_lines parse (Except.ok l :: tail) =
      if sse_is_done l = true then []
      else (sse_line_chunk parse l).toList ++ sse_lines parse tail := by
  by_cases hp : sse_data_tag <+: rustTrim l
  · by_cases hd : (rustTrim l).drop 6 = sse_done_tag
    · have hdone : sse_is_done l = true := by simp [sse_is_done, hp, hd]
      simp [sse_lines, hp, hd, hdone]
    · have hdone : sse_is_done l = false := by simp [sse_is_done, hd]
      cases hj : parse ((rustTrim l).drop 6) with
      | none => simp [sse_lines, hp, hd, hdone, sse_line_chunk, hj]
      | some j =>
        cases ht : delta_text j with
        | none => simp [sse_lines, hp, hd, hdone, sse_line_chunk, hj, ht]
        | some t => simp [sse_lines, hp, hd, hdone, sse_line_chunk, hj, ht]
  · have hdone : sse_is_done l = false := by simp [sse_is_done, hp]
    have hchunk : sse_line_chunk parse l = none := by simp [sse_line_chunk, hp]
    simp [sse_lines, hp, hdone, hchunk]

lemma sse_lines_append_error (parse : Str → Option Json) (pre : List Str) (e : Str)
    (rest : List (Except Str Str)) :
    sse_lines parse (pre.map Except.ok ++ Except.error e :: rest) =
      sse_lines parse (pre.map Except.ok) := by
  induction pre with
  | nil => rfl
  | cons l pre ih =>
    simp only [List.map_cons, List.cons_append, sse_lines_cons, ih]

lemma sse_lines_ok_eq (parse : Str → Option Json) (lines : List Str) :
    sse_lines parse (lines.map Except.ok) =
      (lines.takeWhile (fun l => !sse_is_done l)).filterMap (sse_line_chunk parse) := by
  induction lines with
  | nil => rfl
  | cons l rest ih =>
    rw [List.map_cons, sse_lines_cons, List.takeWhile_cons]
    by_cases hdone : sse_is_done l = true
    · simp [hdone]
    · cases hc : sse_line_chunk parse l with
      | none => simp [hdone, hc, List.filterMap_cons, ih]
      | some t => simp [hdone, hc, List.filterMap_cons, ih]

lemma dropWhile_slash_replicate (x : Str) (n : Nat) :
    (List.replicate n '/' ++ x).dropWhile (fun c => c = '/') =
      x.dropWhile (fun c => c = '/') := by
  induction n with
  | zero => rfl
  | succ n ih => simp [List.replicate_succ, List.dropWhile_cons, ih]

lemma trim_end_slashes_replicate (c : Str) (n : Nat) :
    trim_end_slashes (c ++ List.replicate n '/') = trim_end_slashes c := by
  unfold trim_end_slashes
  rw [List.reverse_append, List.reverse_replicate, dropWhile_slash_replicate]

lemma isEmpty_eq_false_of_ne {l : Str} (h : l ≠ []) : l.isEmpty = false := by
  cases l with
  | nil => exact absurd rfl h
  | cons a t => rfl

lemma any_id_eq (builtin : List ModelInfo) (x : Str) :
    builtin.any (fun b => b.id == x) = decide (x ∈ builtin.map ModelInfo.id) := by
  induction builtin with
  | nil => simp
  | cons b bs ih =>
    by_cases h : b.id = x
    · subst h; simp [List.any_cons]
    · simp [List.any_cons, ih, h, Ne.symm h]

lemma merge_models_nil (builtin : List ModelInfo) :
    merge_models builtin [] = builtin := by
  simp [merge_models]

/-! ## Claim theorems -/

/-- C2: `mask_key` is not total on arbitrary keys. On the 10-byte key made
of five Greek alpha characters the byte length exceeds 8, and the slice
`&key[..3]` falls inside a character, so the Rust function panics (modelled
as `none`) instead of returning any masked string. -/
theorem C2_mask_key_panics_on_nonascii :
    mask_key alphaKeyBytes = none ∧ 8 < alphaKeyBytes.length := by decide

/-- C3: the claimed key precedence chain is violated when an explicit base
URL is supplied without an explicit key: with settings
`ANTHROPIC_AUTH_TOKEN = "A"`, `list_models` resolution skips the settings
file and yields the empty key, while the claimed chain yields `"A"`. -/
theorem C3_settings_skipped_with_explicit_url :
    (resolve_list_credentials [] "https://proxy.example".toList s_auth_A).1 = [] ∧
    spec_key_chain [] s_auth_A = "A".toList := by decide

/-- C4: the claimed base-URL precedence chain is violated when an explicit
key is supplied without an explicit URL: the settings file's
`ANTHROPIC_BASE_URL` is skipped in favour of the default, and with the
environment variable set to the empty string the resolved base URL is even
empty, contradicting the never-empty invariant. -/
theorem C4_url_chain_violated :
    (resolve_list_credentials "E".toList [] s_base_S).2 = defaultBaseUrl ∧
    spec_url_chain [] s_base_S = "https://settings.example".toList ∧
    spec_url_chain [] s_base_S ≠ defaultBaseUrl ∧
    (resolve_list_credentials "E".toList [] s_env_empty_base).2 = [] := by decide

/-- C7: when the resolution chain yields an empty API key, `stream_chat`
fails with the credential error, delivers no chunk, and issues no network
request whatsoever. -/
theorem C7_no_key_no_request (s : SysState) (messages : List ChatMsg) (model : Str)
    (parse : Str → Option Json) (w : ChatWorld)
    (hkey : (get_credentials s).1 = []) :
    stream_chat s messages model parse w =
      (Except.error ChatError.noApiKey, [], []) := by
  simp [stream_chat, hkey]

theorem C7_witness :
    (get_credentials s_empty).1 = [] ∧
    stream_chat s_empty [] "claude-sonnet-4-6".toList (fun _ => none)
        { clientOk := true, response := .transportErr [] } =
      (Except.error ChatError.noApiKey, [], []) :=
  ⟨by decide, C7_no_key_no_request _ _ _ _ _ (by decide)⟩

/-- C1 (counterexample): with a key configured and a 2xx response whose
body reading immediately fails with an I/O error, `stream_chat` returns
success — not a transport error. -/
theorem C1_counterexample :
    (stream_chat s_key_only [] "claude-sonnet-4-6".toList (fun _ => none)
        { clientOk := true
          response := .response 200 [] [Except.error "connection reset by peer".toList] }).1
      = Except.ok () := by rfl

/-- C1 (amended): once streaming (2xx), an I/O error while reading a line
silently terminates consumption of the body: the call behaves exactly as if
the body had ended before the error, returning success with the chunks of
the error-free prefix; no `TransportError` is surfaced. -/
theorem C1_io_error_swallowed (s : SysState) (messages : List ChatMsg) (model : Str)
    (parse : Str → Option Json) (st : Nat) (t e : Str) (pre : List Str)
    (rest : List (Except Str Str))
    (hkey : (get_credentials s).1 ≠ [])
    (hst : isSuccessStatus st = true) :
    stream_chat s messages model parse
        { clientOk := true
          response := .response st t (pre.map Except.ok ++ Except.error e :: rest) } =
      (Except.ok (), sse_lines parse (pre.map Except.ok),
        [chat_request s messages model]) := by
  have hne := isEmpty_eq_false_of_ne hkey
  simp [stream_chat, hne, hst, sse_lines_append_error]

theorem C1_witness :
    (get_credentials s_key_only).1 ≠ [] ∧ isSuccessStatus 200 = true ∧
    stream_chat s_key_only [] "claude-sonnet-4-6".toList parse_demo
        { clientOk := true
          response := .response 200 []
            (["data: evt1".toList].map Except.ok ++
              Except.error "connection reset by peer".toList :: []) } =
      (Except.ok (), sse_lines parse_demo (["data: evt1".toList].map Except.ok),
        [chat_request s_key_only [] "claude-sonnet-4-6".toList]) :=
  ⟨by decide, by decide,
    C1_io_error_swallowed _ _ _ _ _ _ _ _ _ (by decide) (by decide)⟩

/-- C5 (counterexample): with the home directory unresolvable, `list_models`
still returns success (the fault is absorbed inside `get_credentials`, the
environment key takes over, and a failing fetch degrades to the built-in
catalog) — contradicting the claim that this is exactly the error case. -/
theorem C5_counterexample :
    s_no_home.homeDir = false ∧
    list_models s_no_home [] [] (fun _ => none)
        (.response 500 "server error".toList none) =
      .ok builtin_claude_models :=
  ⟨rfl, rfl⟩

/-- C5 (amended): `list_models` never returns an error — every run yields
`.ok`, and under any network-layer fault (transport failure or non-2xx
status) the result is exactly the built-in catalog. -/
theorem C5_list_models_never_errors (s : SysState) (api_key base_url : Str)
    (parseTs : Str → Option Int) (net : CatalogResponse) :
    (∃ ms, list_models s api_key base_url parseTs net = .ok ms) ∧
    (catalog_fault net →
      list_models s api_key base_url parseTs net = .ok builtin_claude_models) := by
  constructor
  · unfold list_models
    dsimp only
    split
    · exact ⟨_, rfl⟩
    · exact ⟨_, rfl⟩
  · intro hf
    have hfetch : ∀ key url, (fetch_anthropic_models parseTs key url net).2 =
        .error (match net with
          | .transportErr m => .requestFailed m
          | .response st t _ => .apiError st t) := by
      intro key url
      cases net with
      | transportErr m => rfl
      | response st t parsed =>
        have hs : isSuccessStatus st = false := hf
        simp [fetch_anthropic_models, hs]
    unfold list_models
    dsimp only
    split
    · rfl
    · rw [hfetch, merge_models_nil]

theorem C5_witness :
    catalog_fault (CatalogResponse.response 500 "server error".toList none) ∧
    ((∃ ms, list_models s_key_only [] [] (fun _ => none)
        (.response 500 "server error".toList none) = .ok ms) ∧
     (catalog_fault (CatalogResponse.response 500 "server error".toList none) →
       list_models s_key_only [] [] (fun _ => none)
          (.response 500 "server error".toList none) = .ok builtin_claude_models)) :=
  ⟨by rfl, C5_list_models_never_errors _ _ _ _ _⟩

/-- C6: once streaming (2xx), the chunks delivered to `on_chunk` are
exactly, and in arrival order, the per-line extractions of the lines before
the first `DONE` sentinel: a line that fails to parse contributes nothing
and does not abort the stream, a `content_block_delta` line with a non-empty
`delta.text` contributes exactly that text, the `DONE` sentinel stops
delivery, and the call returns success. -/
theorem C6_chunk_delivery (s : SysState) (messages : List ChatMsg) (model : Str)
    (parse : Str → Option Json) (lines : List Str) (st : Nat) (t : Str)
    (hkey : (get_credentials s).1 ≠ [])
    (hst : isSuccessStatus st = true) :
    stream_chat s messages model parse
        { clientOk := true, response := .response st t (lines.map Except.ok) } =
      (Except.ok (),
        (lines.takeWhile (fun l => !sse_is_done l)).filterMap (sse_line_chunk parse),
        [chat_request s messages model]) := by
  have hne := isEmpty_eq_false_of_ne hkey
  simp [stream_chat, hne, hst, sse_lines_ok_eq]

theorem C6_witness :
    (get_credentials s_key_only).1 ≠ [] ∧ isSuccessStatus 200 = true ∧
    stream_chat s_key_only [] "claude-sonnet-4-6".toList parse_demo
        { clientOk := true, response := .response 200 [] (demo_lines.map Except.ok) } =
      (Except.ok (),
        (demo_lines.takeWhile (fun l => !sse_is_done l)).filterMap
          (sse_line_chunk parse_demo),
        [chat_request s_key_only [] "claude-sonnet-4-6".toList]) ∧
    (demo_lines.takeWhile (fun l => !sse_is_done l)).filterMap
        (sse_line_chunk parse_demo) =
      ["Hi".toList, "Yo".toList] :=
  ⟨by decide, by decide,
    C6_chunk_delivery _ _ _ _ _ _ _ (by decide) (by decide), by decide⟩

/-- C9 (counterexample): a remote list that repeats an id internally defeats
the no-duplicate claim — `merge` only deduplicates remote entries against
the built-in ids, so `merge([a], [c, c])` is `[a, c, c]` with a duplicate
id. -/
theorem C9_counterexample :
    merge_models [mk_model "a".toList] [mk_model "c".toList, mk_model "c".toList] =
      [mk_model "a".toList, mk_model "c".toList, mk_model "c".toList] ∧
    ¬ ((merge_models [mk_model "a".toList]
        [mk_model "c".toList, mk_model "c".toList]).map ModelInfo.id).Nodup := by
  decide

/-- C9 (amended): `merge` returns the built-in entries first in order,
followed by exactly the remote entries whose id is absent from the built-in
ids, in remote order; and provided each input list carries pairwise-distinct
ids, the result contains no duplicate id. -/
theorem C9_merge_shape (builtin api_models : List ModelInfo)
    (hb : (builtin.map ModelInfo.id).Nodup) (ha : (api_models.map ModelInfo.id).Nodup) :
    merge_models builtin api_models =
      builtin ++ api_models.filter (fun m => decide (m.id ∉ builtin.map ModelInfo.id)) ∧
    ((merge_models builtin api_models).map ModelInfo.id).Nodup := by
  have hshape : merge_models builtin api_models =
      builtin ++ api_models.filter (fun m => decide (m.id ∉ builtin.map ModelInfo.id)) := by
    unfold merge_models
    congr 1
    apply List.filter_congr
    intro m _
    rw [any_id_eq, decide_not]
  refine ⟨hshape, ?_⟩
  rw [hshape, List.map_append, List.nodup_append]
  refine ⟨hb, ?_, ?_⟩
  · exact List.Nodup.sublist ((List.filter_sublist api_models).map ModelInfo.id) ha
  · rw [List.disjoint_left]
    intro a hab hfa
    obtain ⟨m, hmf, rfl⟩ := List.mem_map.mp hfa
    have := (List.mem_filter.mp hmf).2
    exact (of_decide_eq_true this) hab

theorem C9_witness :
    (demo_builtin.map ModelInfo.id).Nodup ∧ (demo_remote.map ModelInfo.id).Nodup ∧
    (merge_models demo_builtin demo_remote =
      demo_builtin ++ demo_remote.filter
        (fun m => decide (m.id ∉ demo_builtin.map ModelInfo.id)) ∧
     ((merge_models demo_builtin demo_remote).map ModelInfo.id).Nodup) ∧
    merge_models demo_builtin demo_remote =
      [mk_model "a".toList, mk_model "b".toList, mk_model "c".toList] :=
  ⟨by decide, by decide, C9_merge_shape _ _ (by decide) (by decide), by decide⟩

/-- C8: on a successful catalog response, the resulting list keeps exactly
the converted entries whose id case-insensitively contains `claude` (a
permutation of the filtered conversion), is ordered `created`-descending
with untimestamped entries after all timestamped ones, and the sort is
stable: entries sharing a `created` key keep their original relative
order. -/
theorem C8_remote_filter_sort (parseTs : Str → Option Int) (api_key base_url t : Str)
    (st : Nat) (data : List AnthropicModel)
    (hst : isSuccessStatus st = true) :
    (fetch_anthropic_models parseTs api_key base_url (.response st t (some data))).2 =
      .ok (remote_pipeline parseTs data) ∧
    (remote_pipeline parseTs data).Perm
      ((data.map (to_model_info parseTs)).filter is_claude_model) ∧
    (∀ m ∈ remote_pipeline parseTs data, is_claude_model m = true) ∧
    List.Pairwise createdDescLE (remote_pipeline parseTs data) ∧
    List.Pairwise (fun a b => a.created = none → b.created = none)
      (remote_pipeline parseTs data) ∧
    (∀ c : Option Int,
      (remote_pipeline parseTs data).filter (fun m => m.created == c) =
        ((data.map (to_model_info parseTs)).filter is_claude_model).filter
          (fun m => m.created == c)) := by
  refine ⟨?_, ?_, ?_, ?_, ?_, ?_⟩
  · simp [fetch_anthropic_models, hst]
  · exact List.perm_insertionSort _ _
  · intro m hm
    have hmem : m ∈ (data.map (to_model_info parseTs)).filter is_claude_model :=
      (List.perm_insertionSort createdDescLE _).mem_iff.mp hm
    exact (List.mem_filter.mp hmem).2
  · exact List.sorted_insertionSort _ _
  · refine List.Pairwise.imp ?_ (List.sorted_insertionSort createdDescLE _)
    intro a b hr ha
    cases hb : b.created with
    | none => rfl
    | some v =>
      exfalso
      unfold createdDescLE at hr
      rw [ha, hb] at hr
      exact hr rfl
  · intro c
    unfold remote_pipeline
    refine filter_insertionSort createdDescLE (fun m => m.created == c) ?_ _
    intro x hx b hb
    have hxc : x.created = c := by simpa using hx
    have hgt : cmpOptCreated b.created x.created = Ordering.gt := by
      by_contra h
      exact hb h
    have hne : b.created ≠ x.created := cmpOpt_gt_ne hgt
    rw [hxc] at hne
    simpa using hne

theorem C8_witness :
    isSuccessStatus 200 = true ∧
    ((fetch_anthropic_models demo_parse_ts "key".toList "http://h".toList
        (.response 200 [] (some demo_catalog))).2 =
      .ok (remote_pipeline demo_parse_ts demo_catalog) ∧
     (remote_pipeline demo_parse_ts demo_catalog).Perm
      ((demo_catalog.map (to_model_info demo_parse_ts)).filter is_claude_model) ∧
     (∀ m ∈ remote_pipeline demo_parse_ts demo_catalog, is_claude_model m = true) ∧
     List.Pairwise createdDescLE (remote_pipeline demo_parse_ts demo_catalog) ∧
     List.Pairwise (fun a b => a.created = none → b.created = none)
      (remote_pipeline demo_parse_ts demo_catalog) ∧
     (∀ c : Option Int,
      (remote_pipeline demo_parse_ts demo_catalog).filter (fun m => m.created == c) =
        ((demo_catalog.map (to_model_info demo_parse_ts)).filter is_claude_model).filter
          (fun m => m.created == c))) ∧
    (remote_pipeline demo_parse_ts demo_catalog).map ModelInfo.id =
      ["claude-x-new".toList, "claude-x-old".toList,
       "claude-no-ts".toList, "claude-bad-ts".toList] :=
  ⟨by decide,
    C8_remote_filter_sort demo_parse_ts "key".toList "http://h".toList [] 200
      demo_catalog (by decide),
    by decide⟩

/-- C10: both endpoints build their URL by stripping every trailing slash
from the resolved base URL before appending the path, so two resolved base
URLs differing only in trailing slashes give identical catalog and chat
URLs, an identical catalog fetch, and an identical chat run. -/
theorem C10_trailing_slash_invariance (c : Str) (n m : Nat) (key : Str)
    (parseTs : Str → Option Int) (net : CatalogResponse)
    (s₁ s₂ : SysState) (messages : List ChatMsg) (model k : Str)
    (parse : Str → Option Json) (w : ChatWorld)
    (h₁ : get_credentials s₁ = (k, c ++ List.replicate n '/'))
    (h₂ : get_credentials s₂ = (k, c ++ List.replicate m '/')) :
    models_url (c ++ List.replicate n '/') = models_url (c ++ List.replicate m '/') ∧
    chat_url (c ++ List.replicate n '/') = chat_url (c ++ List.replicate m '/') ∧
    fetch_anthropic_models parseTs key (c ++ List.replicate n '/') net =
      fetch_anthropic_models parseTs key (c ++ List.replicate m '/') net ∧
    stream_chat s₁ messages model parse w = stream_chat s₂ messages model parse w := by
  have hu : trim_end_slashes (c ++ List.replicate n '/') =
      trim_end_slashes (c ++ List.replicate m '/') := by
    rw [trim_end_slashes_replicate, trim_end_slashes_replicate]
  have hmu : models_url (c ++ List.replicate n '/') =
      models_url (c ++ List.replicate m '/') := by
    unfold models_url
    rw [hu]
  have hcu : chat_url (c ++ List.replicate n '/') =
      chat_url (c ++ List.replicate m '/') := by
    unfold chat_url
    rw [hu]
  refine ⟨hmu, hcu, ?_, ?_⟩
  · unfold fetch_anthropic_models
    rw [hmu]
  · unfold stream_chat chat_request
    rw [h₁, h₂]
    dsimp only
    rw [hcu]

theorem C10_witness :
    get_credentials s_url_a = ("k".toList, "http://h".toList ++ List.replicate 0 '/') ∧
    get_credentials s_url_b = ("k".toList, "http://h".toList ++ List.replicate 2 '/') ∧
    (models_url ("http://h".toList ++ List.replicate 0 '/') =
      models_url ("http://h".toList ++ List.replicate 2 '/') ∧
     chat_url ("http://h".toList ++ List.replicate 0 '/') =
      chat_url ("http://h".toList ++ List.replicate 2 '/') ∧
     fetch_anthropic_models (fun _ => none) "k".toList
        ("http://h".toList ++ List.replicate 0 '/') (.response 500 [] none) =
      fetch_anthropic_models (fun _ => none) "k".toList
        ("http://h".toList ++ List.replicate 2 '/') (.response 500 [] none) ∧
     stream_chat s_url_a [] "claude-sonnet-4-6".toList (fun _ => none)
        { clientOk := true, response := .transportErr [] } =
      stream_chat s_url_b [] "claude-sonnet-4-6".toList (fun _ => none)
        { clientOk := true, response := .transportErr [] }) :=
  ⟨by decide, by decide,
    C10_trailing_slash_invariance "http://h".toList 0 2 "k".toList (fun _ => none)
      (.response 500 [] none) s_url_a s_url_b [] "claude-sonnet-4-6".toList "k".toList
      (fun _ => none) { clientOk := true, response := .transportErr [] }
      (by decide) (by decide)⟩

end SessionCore
